import Mathlib

/-!
Verification of the DiceEngine library (hollanjs/DiceEngine) against its
specification. The Python sources embedded here are src/src/Die.py (the Die
dataclass hierarchy), src/src/Dice.py and src/src/DiceEngine/dice.py (the
Dice container; the two files share construction, roll, add_dice and history
code, the former has remove_lowest_roll/remove_highest_roll, the latter has
freeze/unfreeze), and src/src/DiceEngine/roll_manager.py (RollManager).

Modelling conventions:
  * Python ints are Int; machine randomness (random.randint) is an explicit
    parameter carrying the drawn value.
  * Python exceptions become an error sum type; a fallible operation returns
    Except Err.
  * Object identity matters for freezing-by-reference and for deep-copied
    history snapshots, so Die objects live in a heap list addressed by Nat
    (object identity), the live dice list of a container is a list of
    addresses, and every roll_history entry stores Die values, because
    copy.deepcopy severs all aliasing with the live objects.
-/

/-- Python exception kinds raised by the embedded code paths. -/
inductive Err where
  | valueError
  | typeError
  | attributeError
  | nameError
  | zeroDivisionError
  deriving DecidableEq, Repr

/-- A Die object (src/src/Die.py lines 24-37). kind names the concrete
dataclass (such as "SixSidedDie"), standing for Python class identity, which
the dataclass-generated comparison methods test before comparing; face_count,
rolled and is_frozen are the dataclass fields. face_count and name carry
compare=False, rolled is the only compare=True field. The derived name
attribute is the function Die.name below. -/
structure Die where
  kind : String
  face_count : Nat
  rolled : Int
  is_frozen : Bool
  deriving DecidableEq, Repr

/-- The name attribute set by Die.__post_init__ (Die.py lines 46-51):
the letter d followed by the face count. -/
def Die.name (d : Die) : String := "d" ++ toString d.face_count

/-- Python == between two Die objects. The dataclass-generated __eq__ compares
the tuple of compare=True fields, here (rolled,), but only when the two
operands have the same concrete class; otherwise it returns NotImplemented on
both sides and Python falls back to identity, which is False for two distinct
objects. -/
def dieEq (a b : Die) : Bool := a.kind == b.kind && a.rolled == b.rolled

/-- Python < between two Die objects. The dataclass-generated __lt__ compares
(rolled,) tuples for operands of the same concrete class and returns
NotImplemented otherwise, in which case Python raises TypeError: none models
that TypeError. -/
def dieLt (a b : Die) : Option Bool :=
  if a.kind = b.kind then some (decide (a.rolled < b.rolled)) else none

/-- Die.roll (Die.py lines 179-189). r is the value random.randint(1,
face_count) would produce; when the die is frozen no draw happens and the
stored value is returned. The result is the pair of the updated object and
the returned int. -/
def Die.roll (d : Die) (r : Int) : Die × Int :=
  if d.is_frozen then (d, d.rolled)
  else ({ d with rolled := r }, r)

/-- The right-hand operand of a Die arithmetic dunder: a plain int or another
Die object. -/
inductive Operand where
  | int (n : Int)
  | die (o : Die)
  deriving DecidableEq, Repr

/-- Die.__truediv__ (Die.py lines 145-160). The guard other == 0 is True only
for the integer 0: a Die never equals the integer 0 (dataclass __eq__ against
an int is NotImplemented and the comparison falls back to False), so a
same-class divisor die with rolled = 0 passes the guard and ZeroDivisionError
is raised by the floor division itself. Division is Python floor division,
Int.fdiv. A different-class Die operand reaches the final else: ValueError.
The method assigns nothing, so neither operand is mutated. -/
def Die.truediv (d : Die) (x : Operand) : Except Err Int :=
  match x with
  | .int n =>
      if n = 0 then .error .zeroDivisionError
      else .ok (Int.fdiv d.rolled n)
  | .die o =>
      if o.kind = d.kind then
        if o.rolled = 0 then .error .zeroDivisionError
        else .ok (Int.fdiv d.rolled o.rolled)
      else .error .valueError

/-- Die.__rsub__ (Die.py lines 104-117), handling other - die. The guard
other == 0 short-circuits to return the die's own rolled value, so 0 - die
yields rolled, not its negation. A same-class Die left operand would give
other.rolled - self.rolled, an int n gives n - rolled, anything else
ValueError. -/
def Die.rsub (d : Die) (x : Operand) : Except Err Int :=
  match x with
  | .int n => if n = 0 then .ok d.rolled else .ok (n - d.rolled)
  | .die o =>
      if o.kind = d.kind then .ok (o.rolled - d.rolled)
      else .error .valueError

/-- A fresh object produced by calling the stored die-producing factory
die_type(): an unrolled, unfrozen die of the given concrete kind. -/
def freshDie (kind : String) (faces : Nat) : Die :=
  ⟨kind, faces, 0, false⟩

/-- The Dice container (src/src/Dice.py and src/src/DiceEngine/dice.py,
identical dataclass layout). die_kind and die_faces encode the stored
die_type factory; count is the Python attribute of the same name (an int,
possibly out of sync with the pool); heap holds every allocated Die object,
addressed by position (object identity); pool is the live dice list, a list
of heap addresses, matching Python's list of object references; hist is
roll_history, whose entries store Die values because copy.deepcopy of a
snapshot severs all aliasing with the live objects. -/
structure Dice where
  die_kind : String
  die_faces : Nat
  count : Int
  heap : List Die
  pool : List Nat
  hist : List (List Die)
  deriving DecidableEq, Repr

/-- Dereference a Die object address (the default value is unreachable for
addresses allocated by the operations below). -/
def Dice.getDie (s : Dice) (i : Nat) : Die := s.heap.getD i (freshDie "" 0)

/-- The value sequence of the live dice list self.dice, in pool order. -/
def Dice.liveDice (s : Dice) : List Die := s.pool.map s.getDie

/-- Dice.__post_init__ (dice.py lines 24-30): instantiate count fresh dice of
the die type and record the initial deep-copy snapshot as history entry 0. -/
def Dice.make (kind : String) (faces : Nat) (n : Nat) : Dice :=
  let base : Dice :=
    { die_kind := kind, die_faces := faces, count := (n : Int),
      heap := List.replicate n (freshDie kind faces),
      pool := List.range n, hist := [] }
  { base with hist := [base.liveDice] }

/-- Dice.from_dice_list (dice.py lines 32-53). An empty list fails with
ValueError. Otherwise the constructor is invoked with count=0 (and count is
never updated afterwards), the assignment dice_instance.dice = dice_list[:]
copies the list of references so the pool aliases the caller's objects
(modelled by allocating the caller's dice at addresses 0..len-1), and
roll_history is reset to one deep-copy snapshot. The first element's concrete
kind is taken as the die_type. -/
def Dice.from_dice_list (ds : List Die) : Except Err Dice :=
  if ds.isEmpty then .error .valueError
  else
    let base : Dice :=
      { die_kind := (ds.headD (freshDie "" 0)).kind,
        die_faces := (ds.headD (freshDie "" 0)).face_count,
        count := 0, heap := ds,
        pool := List.range ds.length, hist := [] }
    .ok { base with hist := [base.liveDice] }

/-- Dice.current_roll (dice.py lines 64-66): roll_history[-1]. The history is
never empty in a constructed container, so the total getLastD is faithful. -/
def Dice.current_roll (s : Dice) : List Die := s.hist.getLastD []

/-- Dice.current_total (dice.py lines 77-79): sum(self.current_roll), which
through Die.__add__ and Die.__radd__ is the sum of the rolled values. -/
def Dice.current_total (s : Dice) : Int :=
  (s.current_roll.map Die.rolled).sum

/-- The loop of Dice.roll (dice.py lines 93-94): each die of self.dice is
rolled in pool order via Die.roll; rs pos is the randint draw available to
the die at pool position pos (ignored when that die is frozen). -/
def rollHeap (heap : List Die) (pool : List Nat) (rs : Nat → Int) (pos : Nat) :
    List Die :=
  match pool with
  | [] => heap
  | i :: rest =>
      let d := heap.getD i (freshDie "" 0)
      rollHeap (heap.set i (Die.roll d (rs pos)).1) rest rs (pos + 1)

/-- Dice.roll (dice.py lines 85-96): roll every held die, then append a
deep-copy snapshot of the post-roll pool to roll_history. -/
def Dice.roll (s : Dice) (rs : Nat → Int) : Dice :=
  let s1 : Dice := { s with heap := rollHeap s.heap s.pool rs 0 }
  { s1 with hist := s1.hist ++ [s1.liveDice] }

/-- One iteration of the Dice.add_dice loop (dice.py lines 106-108):
self.dice.append(self.die_type()); self.count += 1. The new object receives
the next free heap address. -/
def Dice.addOne (s : Dice) : Dice :=
  { s with heap := s.heap ++ [freshDie s.die_kind s.die_faces],
           pool := s.pool ++ [s.heap.length],
           count := s.count + 1 }

/-- Dice.add_dice(number) (dice.py lines 98-108): the loop body run number
times. -/
def Dice.add_dice (s : Dice) (number : Nat) : Dice :=
  Dice.addOne^[number] s

/-- Python min(iterable, key=f): the first element attaining the least key;
a later element supersedes an earlier one only when its key is strictly
smaller. -/
def pyMinBy (key : Nat → Int) : List Nat → Option Nat
  | [] => none
  | x :: xs =>
      match pyMinBy key xs with
      | none => some x
      | some b => if key b < key x then some b else some x

/-- Python max(iterable, key=f): the first element attaining the greatest
key; a later element supersedes an earlier one only when its key is strictly
greater. -/
def pyMaxBy (key : Nat → Int) : List Nat → Option Nat
  | [] => none
  | x :: xs =>
      match pyMaxBy key xs with
      | none => some x
      | some b => if key x < key b then some b else some x

/-- Python list.remove(target): delete the first element equal (==) to the
target. Here elements are object references and hit tests Die.__eq__ against
the target object. The ValueError of a missing target cannot occur in
remove_lowest_roll / remove_highest_roll, whose target comes from the list
itself. -/
def pyRemove (hit : Nat → Bool) : List Nat → List Nat
  | [] => []
  | x :: xs => if hit x then xs else x :: pyRemove hit xs

/-- Dice.remove_lowest_roll (src/src/Dice.py lines 110-119): ValueError on an
empty pool, else remove the first die equal to min(self.dice, key=rolled) and
decrement count. -/
def Dice.remove_lowest_roll (s : Dice) : Except Err Dice :=
  match pyMinBy (fun i => (s.getDie i).rolled) s.pool with
  | none => .error .valueError
  | some m =>
      .ok { s with
              pool := pyRemove (fun i => dieEq (s.getDie i) (s.getDie m)) s.pool,
              count := s.count - 1 }

/-- Dice.remove_highest_roll (src/src/Dice.py lines 121-130): ValueError on
an empty pool, else remove the first die equal to max(self.dice, key=rolled)
and decrement count. -/
def Dice.remove_highest_roll (s : Dice) : Except Err Dice :=
  match pyMaxBy (fun i => (s.getDie i).rolled) s.pool with
  | none => .error .valueError
  | some m =>
      .ok { s with
              pool := pyRemove (fun i => dieEq (s.getDie i) (s.getDie m)) s.pool,
              count := s.count - 1 }

/-- An argument passed for the dice parameter of freeze/unfreeze: a Die
object reference, or a non-Die value (an int stands in for any such). -/
inductive PyObj where
  | dieRef (i : Nat)
  | intVal (n : Int)
  deriving DecidableEq, Repr

/-- The dice argument of freeze/unfreeze: None, a scalar object, or a list. -/
inductive FreezeArg where
  | none
  | obj (o : PyObj)
  | list (l : List PyObj)
  deriving DecidableEq, Repr

/-- Python truthiness of a freeze/unfreeze argument: None, the int 0 and an
empty list are falsy; Die objects, nonzero ints and non-empty lists are
truthy. -/
def pyTruthy : FreezeArg → Bool
  | .none => false
  | .obj (.dieRef _) => true
  | .obj (.intVal n) => n != 0
  | .list l => !l.isEmpty

/-- isinstance(dice, Die) on the argument. -/
def isDieArg : FreezeArg → Bool
  | .obj (.dieRef _) => true
  | _ => false

/-- isinstance(dice, list) and all(isinstance(d, Die) for d in dice); note
all() over the empty list is True. -/
def allDieList : FreezeArg → Bool
  | .list l => l.all fun o => match o with | .dieRef _ => true | .intVal _ => false
  | _ => false

/-- Whether the non_die_values comprehension over the argument (the argument
itself when it is not a list) finds at least one non-Die element; None is a
non-Die value. -/
def nonDieValuesNonempty : FreezeArg → Bool
  | .none => true
  | .obj (.dieRef _) => false
  | .obj (.intVal _) => true
  | .list l => l.any fun o => match o with | .dieRef _ => false | .intVal _ => true

/-- The body of Dice.__validate_method_params_freeze_unfreeze
(src/src/DiceEngine/dice.py lines 114-130), read as the two-parameter
function it is written as: identity tests dice is None for the first two
checks, then isinstance dispatch with an unconditional raise in the final
else. Consequently dice=None with all_dice=True is rejected here while an
empty list satisfies the all()-over-empty test and is accepted. This body is
unreachable in the program: see Dice.freeze. -/
def Dice.validate_freeze_logic (dice : FreezeArg) (all_dice : Bool) :
    Except Err Unit :=
  if dice = FreezeArg.none ∧ all_dice = false then .error .valueError
  else if dice ≠ FreezeArg.none ∧ all_dice = true then .error .valueError
  else if isDieArg dice then .ok ()
  else if allDieList dice then .ok ()
  else .error .valueError

/-- Dice.freeze (src/src/DiceEngine/dice.py lines 132-137). Its first
statement calls self.__validate_method_params_freeze_unfreeze(dice, all_dice),
but that validator is defined without a self parameter, so the bound-method
call passes three positional arguments to a two-parameter function and every
call, with any arguments whatsoever, raises TypeError before any validation
or freezing can happen. -/
def Dice.freeze (_s : Dice) (_dice : FreezeArg) (_all_dice : Bool) :
    Except Err Dice :=
  .error .typeError

/-- Dice.unfreeze (src/src/DiceEngine/dice.py lines 139-144) is declared
without a self parameter, so a method call binds the Dice instance to the
dice parameter, and the body then reads the undefined name self: every call
raises NameError. -/
def Dice.unfreeze (_s : Dice) (_dice : FreezeArg) (_all_dice : Bool) :
    Except Err Dice :=
  .error .nameError

/-- The statements of Dice.freeze after the validation call (dice.py lines
134-137): both isinstance branches are pass, so even if the validation call
succeeded, no die's is_frozen flag would be touched and the container would
be left unchanged. -/
def Dice.freeze_body (s : Dice) (_dice : FreezeArg) (_all_dice : Bool) : Dice :=
  s

/-- Set the is_frozen flag of one referenced Die object: the conditional
toggle dice.is_frozen or dice.toggle_freeze() of RollManager.freeze (and the
dual for unfreeze) nets to an idempotent assignment of the flag. -/
def Dice.setFrozen (s : Dice) (i : Nat) (b : Bool) : Dice :=
  { s with heap := s.heap.set i { s.getDie i with is_frozen := b } }

/-- RollManager.__validate_method_params_freeze_unfreeze
(roll_manager.py lines 145-170): truthiness test, then identity-to-None with
all_dice, then the isinstance dispatch, then the non_die_values check, and an
implicit successful return at the end. -/
def RollManager.validate (dice : FreezeArg) (all_dice : Bool) :
    Except Err Unit :=
  if !pyTruthy dice && !all_dice then .error .valueError
  else if dice ≠ FreezeArg.none ∧ all_dice = true then .error .valueError
  else if isDieArg dice then .ok ()
  else if allDieList dice then .ok ()
  else if !pyTruthy dice && all_dice then .ok ()
  else if nonDieValuesNonempty dice then .error .valueError
  else .ok ()

/-- RollManager.freeze (roll_manager.py lines 172-181), acting on the managed
Dice object self._dice. After validation: a single Die reference has its
is_frozen set (idempotently); a list of Die recursively freezes each element
(each recursive call revalidates, and a lone Die reference always passes);
otherwise, when all_dice was requested, the code evaluates self.dice, but a
RollManager has no attribute dice (the field is _dice), so that path raises
AttributeError; any remaining case falls through leaving the state unchanged. -/
def RollManager.freeze (s : Dice) (dice : FreezeArg) (all_dice : Bool) :
    Except Err Dice :=
  match RollManager.validate dice all_dice with
  | .error e => .error e
  | .ok _ =>
      match dice with
      | .obj (.dieRef i) => .ok (s.setFrozen i true)
      | .list l =>
          if l.all (fun o => match o with | .dieRef _ => true | .intVal _ => false) then
            .ok (l.foldl (fun acc o =>
              match o with
              | .dieRef i => acc.setFrozen i true
              | .intVal _ => acc) s)
          else if all_dice then .error .attributeError
          else .ok s
      | _ => if all_dice then .error .attributeError else .ok s

/-- RollManager.unfreeze (roll_manager.py lines 183-192): dual of freeze,
clearing is_frozen, with the same AttributeError on the all_dice path. -/
def RollManager.unfreeze (s : Dice) (dice : FreezeArg) (all_dice : Bool) :
    Except Err Dice :=
  match RollManager.validate dice all_dice with
  | .error e => .error e
  | .ok _ =>
      match dice with
      | .obj (.dieRef i) => .ok (s.setFrozen i false)
      | .list l =>
          if l.all (fun o => match o with | .dieRef _ => true | .intVal _ => false) then
            .ok (l.foldl (fun acc o =>
              match o with
              | .dieRef i => acc.setFrozen i false
              | .intVal _ => acc) s)
          else if all_dice then .error .attributeError
          else .ok s
      | _ => if all_dice then .error .attributeError else .ok s

/-- RollManager.roll_with_advantage (roll_manager.py lines 77-92) on the
managed Dice: add one die, roll all dice, remove the lowest from the live
pool, return the state with self._dice.current_total. current_total reads the
last roll_history snapshot, which was taken before the removal. The print
calls are ignored; note that as written the first print reads
self._dice.Die_type (the attribute is named die_type) and the packaged Dice
class has no remove_lowest_roll (the method lives in src/src/Dice.py), so at
runtime the method raises AttributeError before finishing; the embedding
follows the documented sequence of operations to exhibit the value the
method computes for its return. -/
def RollManager.roll_with_advantage (s : Dice) (rs : Nat → Int) :
    Except Err (Dice × Int) :=
  match ((s.add_dice 1).roll rs).remove_lowest_roll with
  | .error e => .error e
  | .ok s2 => .ok (s2, s2.current_total)

/-- RollManager.roll_with_disadvantage (roll_manager.py lines 94-109): as
roll_with_advantage but removing the highest roll. -/
def RollManager.roll_with_disadvantage (s : Dice) (rs : Nat → Int) :
    Except Err (Dice × Int) :=
  match ((s.add_dice 1).roll rs).remove_highest_roll with
  | .error e => .error e
  | .ok s2 => .ok (s2, s2.current_total)

/-- A shared sample container: three unrolled six-sided dice, the setUp state
of the repository's own test classes. -/
def d6pool3 : Dice := Dice.make "SixSidedDie" 6 3

/-- Specification of pyMinBy: on a non-empty list it returns the element at
the first position attaining the minimal key. -/
theorem pyMinBy_spec (key : Nat → Int) :
    ∀ l : List Nat, l ≠ [] →
    ∃ j, j < l.length ∧ pyMinBy key l = some (l.getD j 0) ∧
      (∀ i, i < l.length → key (l.getD j 0) ≤ key (l.getD i 0)) ∧
      (∀ i, i < j → key (l.getD j 0) < key (l.getD i 0)) := by
  intro l
  induction l with
  | nil => intro h; exact absurd rfl h
  | cons x xs ih =>
    intro _
    by_cases hxs : xs = []
    · subst hxs
      refine ⟨0, by simp, by simp [pyMinBy], ?_, by omega⟩
      intro i hi
      have hi0 : i = 0 := by simpa using hi
      subst hi0
      exact le_refl _
    · obtain ⟨j, hj, heq, hle, hlt⟩ := ih hxs
      have hcomp : pyMinBy key (x :: xs) =
          if key (xs.getD j 0) < key x then some (xs.getD j 0) else some x := by
        simp only [pyMinBy, heq]
      by_cases hc : key (xs.getD j 0) < key x
      · refine ⟨j + 1, by simpa using Nat.succ_lt_succ hj, ?_, ?_, ?_⟩
        · rw [hcomp, if_pos hc, List.getD_cons_succ]
        · intro i hi
          cases i with
          | zero =>
            rw [List.getD_cons_succ, List.getD_cons_zero]
            exact le_of_lt hc
          | succ i =>
            have hi2 : i < xs.length := by simpa using hi
            rw [List.getD_cons_succ, List.getD_cons_succ]
            exact hle i hi2
        · intro i hi
          cases i with
          | zero =>
            rw [List.getD_cons_succ, List.getD_cons_zero]
            exact hc
          | succ i =>
            have hi2 : i < j := by omega
            rw [List.getD_cons_succ, List.getD_cons_succ]
            exact hlt i hi2
      · refine ⟨0, by simp, ?_, ?_, by omega⟩
        · rw [hcomp, if_neg hc, List.getD_cons_zero]
        · intro i hi
          cases i with
          | zero => exact le_refl _
          | succ i =>
            have hi2 : i < xs.length := by simpa using hi
            have hxb : key x ≤ key (xs.getD j 0) := not_lt.mp hc
            rw [List.getD_cons_zero, List.getD_cons_succ]
            exact le_trans hxb (hle i hi2)

/-- Specification of pyMaxBy: on a non-empty list it returns the element at
the first position attaining the maximal key. -/
theorem pyMaxBy_spec (key : Nat → Int) :
    ∀ l : List Nat, l ≠ [] →
    ∃ j, j < l.length ∧ pyMaxBy key l = some (l.getD j 0) ∧
      (∀ i, i < l.length → key (l.getD i 0) ≤ key (l.getD j 0)) ∧
      (∀ i, i < j → key (l.getD i 0) < key (l.getD j 0)) := by
  intro l
  induction l with
  | nil => intro h; exact absurd rfl h
  | cons x xs ih =>
    intro _
    by_cases hxs : xs = []
    · subst hxs
      refine ⟨0, by simp, by simp [pyMaxBy], ?_, by omega⟩
      intro i hi
      have hi0 : i = 0 := by simpa using hi
      subst hi0
      exact le_refl _
    · obtain ⟨j, hj, heq, hle, hlt⟩ := ih hxs
      have hcomp : pyMaxBy key (x :: xs) =
          if key x < key (xs.getD j 0) then some (xs.getD j 0) else some x := by
        simp only [pyMaxBy, heq]
      by_cases hc : key x < key (xs.getD j 0)
      · refine ⟨j + 1, by simpa using Nat.succ_lt_succ hj, ?_, ?_, ?_⟩
        · rw [hcomp, if_pos hc, List.getD_cons_succ]
        · intro i hi
          cases i with
          | zero =>
            rw [List.getD_cons_succ, List.getD_cons_zero]
            exact le_of_lt hc
          | succ i =>
            have hi2 : i < xs.length := by simpa using hi
            rw [List.getD_cons_succ, List.getD_cons_succ]
            exact hle i hi2
        · intro i hi
          cases i with
          | zero =>
            rw [List.getD_cons_succ, List.getD_cons_zero]
            exact hc
          | succ i =>
            have hi2 : i < j := by omega
            rw [List.getD_cons_succ, List.getD_cons_succ]
            exact hlt i hi2
      · refine ⟨0, by simp, ?_, ?_, by omega⟩
        · rw [hcomp, if_neg hc, List.getD_cons_zero]
        · intro i hi
          cases i with
          | zero => exact le_refl _
          | succ i =>
            have hi2 : i < xs.length := by simpa using hi
            have hxb : key (xs.getD j 0) ≤ key x := not_lt.mp hc
            rw [List.getD_cons_zero, List.getD_cons_succ]
            exact le_trans (hle i hi2) hxb

/-- pyRemove deletes exactly the element at position j when position j is hit
and no earlier position is. -/
theorem pyRemove_eq_eraseIdx (hit : Nat → Bool) :
    ∀ (l : List Nat) (j : Nat), j < l.length →
      hit (l.getD j 0) = true →
      (∀ i, i < j → hit (l.getD i 0) = false) →
      pyRemove hit l = l.eraseIdx j := by
  intro l
  induction l with
  | nil => intro j hj; simp at hj
  | cons x xs ih =>
    intro j hj hhit hmiss
    cases j with
    | zero =>
      have hx : hit x = true := by simpa using hhit
      simp [pyRemove, hx]
    | succ j =>
      have hx : hit x = false := by simpa using hmiss 0 (by omega)
      have hrec : pyRemove hit xs = xs.eraseIdx j := by
        refine ih j (by simpa using hj) (by simpa using hhit) ?_
        intro i hi
        simpa using hmiss (i + 1) (by omega)
      simp [pyRemove, hx, hrec]

/-- Length of eraseIdx at a valid position. -/
theorem length_eraseIdx_of_lt : ∀ (l : List Nat) (j : Nat), j < l.length →
    (l.eraseIdx j).length = l.length - 1 := by
  intro l
  induction l with
  | nil => intro j hj; simp at hj
  | cons x xs ih =>
    intro j hj
    cases j with
    | zero => simp
    | succ j =>
      have hlen : j < xs.length := by simpa using hj
      have hrec := ih j hlen
      rw [List.eraseIdx_cons_succ, List.length_cons, List.length_cons, hrec]
      omega

/-- Characterization of Dice.remove_lowest_roll on a non-empty pool: the
pool loses exactly its first minimal-rolled entry and count drops by one;
everything else in the state is untouched. -/
theorem remove_lowest_spec (s : Dice) (h : s.pool ≠ []) :
    ∃ j, j < s.pool.length ∧
      s.remove_lowest_roll =
        .ok { s with pool := s.pool.eraseIdx j, count := s.count - 1 } ∧
      (∀ i, i < s.pool.length →
        (s.getDie (s.pool.getD j 0)).rolled ≤ (s.getDie (s.pool.getD i 0)).rolled) ∧
      (∀ i, i < j →
        (s.getDie (s.pool.getD j 0)).rolled < (s.getDie (s.pool.getD i 0)).rolled) := by
  obtain ⟨j, hj, heq, hle, hlt⟩ :=
    pyMinBy_spec (fun i => (s.getDie i).rolled) s.pool h
  have hrem :
      pyRemove (fun i => dieEq (s.getDie i) (s.getDie (s.pool.getD j 0))) s.pool =
        s.pool.eraseIdx j := by
    refine pyRemove_eq_eraseIdx _ s.pool j hj (by simp [dieEq]) ?_
    intro i hi
    have hne : ((s.getDie (s.pool.getD i 0)).rolled ==
        (s.getDie (s.pool.getD j 0)).rolled) = false := by
      refine beq_eq_false_iff_ne.mpr ?_
      have := hlt i hi
      omega
    show dieEq (s.getDie (s.pool.getD i 0)) (s.getDie (s.pool.getD j 0)) = false
    unfold dieEq
    rw [hne, Bool.and_false]
  refine ⟨j, hj, ?_, hle, hlt⟩
  have hcomp : s.remove_lowest_roll =
      .ok { s with
              pool := pyRemove
                (fun i => dieEq (s.getDie i) (s.getDie (s.pool.getD j 0))) s.pool,
              count := s.count - 1 } := by
    unfold Dice.remove_lowest_roll
    rw [heq]
  rw [hcomp, hrem]

/-- Characterization of Dice.remove_highest_roll on a non-empty pool, dual to
remove_lowest_spec. -/
theorem remove_highest_spec (s : Dice) (h : s.pool ≠ []) :
    ∃ j, j < s.pool.length ∧
      s.remove_highest_roll =
        .ok { s with pool := s.pool.eraseIdx j, count := s.count - 1 } ∧
      (∀ i, i < s.pool.length →
        (s.getDie (s.pool.getD i 0)).rolled ≤ (s.getDie (s.pool.getD j 0)).rolled) ∧
      (∀ i, i < j →
        (s.getDie (s.pool.getD i 0)).rolled < (s.getDie (s.pool.getD j 0)).rolled) := by
  obtain ⟨j, hj, heq, hle, hlt⟩ :=
    pyMaxBy_spec (fun i => (s.getDie i).rolled) s.pool h
  have hrem :
      pyRemove (fun i => dieEq (s.getDie i) (s.getDie (s.pool.getD j 0))) s.pool =
        s.pool.eraseIdx j := by
    refine pyRemove_eq_eraseIdx _ s.pool j hj (by simp [dieEq]) ?_
    intro i hi
    have hne : ((s.getDie (s.pool.getD i 0)).rolled ==
        (s.getDie (s.pool.getD j 0)).rolled) = false := by
      refine beq_eq_false_iff_ne.mpr ?_
      have := hlt i hi
      omega
    show dieEq (s.getDie (s.pool.getD i 0)) (s.getDie (s.pool.getD j 0)) = false
    unfold dieEq
    rw [hne, Bool.and_false]
  refine ⟨j, hj, ?_, hle, hlt⟩
  have hcomp : s.remove_highest_roll =
      .ok { s with
              pool := pyRemove
                (fun i => dieEq (s.getDie i) (s.getDie (s.pool.getD j 0))) s.pool,
              count := s.count - 1 } := by
    unfold Dice.remove_highest_roll
    rw [heq]
  rw [hcomp, hrem]

/-- Removing from an empty pool fails with ValueError, for both extremes. -/
theorem remove_empty_spec (s : Dice) (h : s.pool = []) :
    s.remove_lowest_roll = .error .valueError ∧
    s.remove_highest_roll = .error .valueError := by
  constructor
  · unfold Dice.remove_lowest_roll
    rw [h]
    rfl
  · unfold Dice.remove_highest_roll
    rw [h]
    rfl

/-- C5 (corrected): comparison of dice is generated from the single
compare=True field rolled, with face_count and name excluded, but it only
applies between operands of the same concrete class: for same-class dice,
equality holds exactly when the rolled values agree (even with different
face counts) and ordering compares the rolled values; for dice of different
concrete classes, == is False regardless of rolled and < raises TypeError,
so such dice are neither equal nor orderable. -/
theorem C5_compare_by_rolled_same_class_only : ∀ a b : Die,
    (a.kind = b.kind →
      (dieEq a b = true ↔ a.rolled = b.rolled) ∧
      dieLt a b = some (decide (a.rolled < b.rolled))) ∧
    (a.kind ≠ b.kind → dieEq a b = false ∧ dieLt a b = none) := by
  intro a b
  constructor
  · intro hk
    unfold dieEq dieLt
    simp [hk]
  · intro hk
    unfold dieEq dieLt
    simp [hk]

/-- C5 counterexample: a FourSidedDie and a SixSidedDie with the same rolled
value 3 do not compare equal (the claim says dice of different concrete kinds
with equal rolled values compare equal) and are not orderable (dieLt is the
TypeError result none). -/
theorem C5_cross_kind_counterexample :
    dieEq ⟨"FourSidedDie", 4, 3, false⟩ ⟨"SixSidedDie", 6, 3, false⟩ = false ∧
    dieLt ⟨"FourSidedDie", 4, 3, false⟩ ⟨"SixSidedDie", 6, 3, false⟩ = none ∧
    (⟨"FourSidedDie", 4, 3, false⟩ : Die).rolled =
      (⟨"SixSidedDie", 6, 3, false⟩ : Die).rolled := by
  decide

/-- C5 witness: two SixSidedDie objects with different face counts and equal
rolled values compare equal and are ordered by rolled (face_count excluded);
a FourSidedDie and a SixSidedDie are unequal and unordered. -/
theorem C5_compare_witness :
    ((dieEq ⟨"SixSidedDie", 4, 2, false⟩ ⟨"SixSidedDie", 6, 2, true⟩ = true ↔
        (⟨"SixSidedDie", 4, 2, false⟩ : Die).rolled =
          (⟨"SixSidedDie", 6, 2, true⟩ : Die).rolled) ∧
      dieLt ⟨"SixSidedDie", 4, 2, false⟩ ⟨"SixSidedDie", 6, 2, true⟩ =
        some (decide ((⟨"SixSidedDie", 4, 2, false⟩ : Die).rolled <
          (⟨"SixSidedDie", 6, 2, true⟩ : Die).rolled))) ∧
    (dieEq ⟨"FourSidedDie", 4, 5, false⟩ ⟨"SixSidedDie", 6, 5, false⟩ = false ∧
      dieLt ⟨"FourSidedDie", 4, 5, false⟩ ⟨"SixSidedDie", 6, 5, false⟩ = none) :=
  ⟨(C5_compare_by_rolled_same_class_only ⟨"SixSidedDie", 4, 2, false⟩
      ⟨"SixSidedDie", 6, 2, true⟩).1 rfl,
   (C5_compare_by_rolled_same_class_only ⟨"FourSidedDie", 4, 5, false⟩
      ⟨"SixSidedDie", 6, 5, false⟩).2 (by decide)⟩

/-- C8 (confirmed): Die.roll on an unfrozen die stores the drawn value
(which randint keeps in [1, face_count]) into rolled and returns it, leaving
kind, face_count and is_frozen unchanged; on a frozen die it changes nothing
and returns the existing rolled value. -/
theorem C8_die_roll_spec : ∀ (d : Die) (r : Int),
    (d.is_frozen = true → Die.roll d r = (d, d.rolled)) ∧
    (d.is_frozen = false → 1 ≤ r → r ≤ (d.face_count : Int) →
      Die.roll d r = ({ d with rolled := r }, r) ∧
      (Die.roll d r).1.rolled = r ∧
      1 ≤ (Die.roll d r).1.rolled ∧
      (Die.roll d r).1.rolled ≤ ((Die.roll d r).1.face_count : Int) ∧
      (Die.roll d r).2 = (Die.roll d r).1.rolled ∧
      (Die.roll d r).1.kind = d.kind ∧
      (Die.roll d r).1.face_count = d.face_count ∧
      (Die.roll d r).1.is_frozen = d.is_frozen) := by
  intro d r
  constructor
  · intro h
    simp [Die.roll, h]
  · intro h h1 h2
    simp [Die.roll, h, h1, h2]

/-- C8 witness: a frozen d20 holding 9 keeps 9 and returns it; an unfrozen
d6 drawing 4 stores 4. -/
theorem C8_die_roll_witness :
    Die.roll ⟨"TwentySidedDie", 20, 9, true⟩ 3 =
      (⟨"TwentySidedDie", 20, 9, true⟩, (⟨"TwentySidedDie", 20, 9, true⟩ : Die).rolled) ∧
    (Die.roll ⟨"SixSidedDie", 6, 0, false⟩ 4).1.rolled = 4 :=
  ⟨(C8_die_roll_spec ⟨"TwentySidedDie", 20, 9, true⟩ 3).1 rfl,
   ((C8_die_roll_spec ⟨"SixSidedDie", 6, 0, false⟩ 4).2 rfl (by decide) (by decide)).2.1⟩

/-- C9 (confirmed): dividing a Die by the integer 0, or by a same-kind die
whose rolled value is 0, fails with ZeroDivisionError (and __truediv__
performs no assignment, so no operand is mutated); dividing by a nonzero int
or same-kind die returns the floor quotient of the rolled values. -/
theorem C9_truediv_spec : ∀ (d o : Die) (n : Int),
    (Die.truediv d (.int 0) = .error .zeroDivisionError) ∧
    (o.kind = d.kind → o.rolled = 0 →
      Die.truediv d (.die o) = .error .zeroDivisionError) ∧
    (n ≠ 0 → Die.truediv d (.int n) = .ok (Int.fdiv d.rolled n)) ∧
    (o.kind = d.kind → o.rolled ≠ 0 →
      Die.truediv d (.die o) = .ok (Int.fdiv d.rolled o.rolled)) := by
  intro d o n
  refine ⟨by simp [Die.truediv], ?_, ?_, ?_⟩
  · intro hk h0
    simp [Die.truediv, hk, h0]
  · intro hn
    simp [Die.truediv, hn]
  · intro hk h0
    simp [Die.truediv, hk, h0]

/-- C9 witness: a d20 holding 4 divided by 0 and by a same-kind die holding 0
both fail with ZeroDivisionError; divided by a same-kind die holding 3 it
returns the floor quotient 1. -/
theorem C9_truediv_witness :
    Die.truediv ⟨"TwentySidedDie", 20, 4, false⟩ (.int 0) = .error .zeroDivisionError ∧
    Die.truediv ⟨"TwentySidedDie", 20, 4, false⟩
        (.die ⟨"TwentySidedDie", 20, 0, false⟩) = .error .zeroDivisionError ∧
    Die.truediv ⟨"TwentySidedDie", 20, 4, false⟩
        (.die ⟨"TwentySidedDie", 20, 3, false⟩) =
      .ok (Int.fdiv (⟨"TwentySidedDie", 20, 4, false⟩ : Die).rolled
        (⟨"TwentySidedDie", 20, 3, false⟩ : Die).rolled) :=
  ⟨(C9_truediv_spec ⟨"TwentySidedDie", 20, 4, false⟩ ⟨"TwentySidedDie", 20, 0, false⟩ 1).1,
   (C9_truediv_spec ⟨"TwentySidedDie", 20, 4, false⟩
      ⟨"TwentySidedDie", 20, 0, false⟩ 1).2.1 rfl rfl,
   (C9_truediv_spec ⟨"TwentySidedDie", 20, 4, false⟩
      ⟨"TwentySidedDie", 20, 3, false⟩ 1).2.2.2 rfl (by decide)⟩

/-- C10 (confirmed): reverse subtraction int - die short-circuits a zero left
operand, so 0 - die returns the die's own rolled value, not its negation,
while a nonzero n gives n - rolled. -/
theorem C10_rsub_spec : ∀ (d : Die) (n : Int),
    (Die.rsub d (.int 0) = .ok d.rolled) ∧
    (n ≠ 0 → Die.rsub d (.int n) = .ok (n - d.rolled)) := by
  intro d n
  refine ⟨by simp [Die.rsub], ?_⟩
  intro hn
  simp [Die.rsub, hn]

/-- C10 witness: with rolled = 4, the code gives 0 - die = 4 (and not -4)
and 7 - die = 3. -/
theorem C10_rsub_witness :
    Die.rsub ⟨"SixSidedDie", 6, 4, false⟩ (.int 0) =
      .ok (⟨"SixSidedDie", 6, 4, false⟩ : Die).rolled ∧
    Die.rsub ⟨"SixSidedDie", 6, 4, false⟩ (.int 7) =
      .ok (7 - (⟨"SixSidedDie", 6, 4, false⟩ : Die).rolled) :=
  ⟨(C10_rsub_spec ⟨"SixSidedDie", 6, 4, false⟩ 7).1,
   (C10_rsub_spec ⟨"SixSidedDie", 6, 4, false⟩ 7).2 (by decide)⟩

/-- Dice.add_dice adds number to count, appends number pool entries, and
leaves roll_history untouched. -/
theorem add_dice_stats (s : Dice) (n : Nat) :
    (s.add_dice n).count = s.count + n ∧
    (s.add_dice n).pool.length = s.pool.length + n ∧
    (s.add_dice n).hist = s.hist := by
  induction n with
  | zero => simp [Dice.add_dice]
  | succ n ih =>
    obtain ⟨h1, h2, h3⟩ := ih
    have hstep : s.add_dice (n + 1) = Dice.addOne (s.add_dice n) :=
      Function.iterate_succ_apply' _ _ _
    refine ⟨?_, ?_, ?_⟩
    · rw [hstep]
      show (s.add_dice n).count + 1 = s.count + ((n : Int) + 1)
      rw [h1]
      ring
    · rw [hstep]
      have hs : (Dice.addOne (s.add_dice n)).pool.length =
          (s.add_dice n).pool.length + 1 := by
        simp [Dice.addOne]
      rw [hs, h2]
      omega
    · rw [hstep]
      exact h3

/-- Dice.roll leaves count and pool unchanged and appends exactly one
snapshot, the value sequence of the post-roll live dice, to roll_history. -/
theorem roll_stats (s : Dice) (rs : Nat → Int) :
    (s.roll rs).count = s.count ∧ (s.roll rs).pool = s.pool ∧
    (s.roll rs).hist = s.hist ++ [(s.roll rs).liveDice] ∧
    (s.roll rs).current_roll = (s.roll rs).liveDice := by
  refine ⟨rfl, rfl, rfl, ?_⟩
  have h : (s.roll rs).hist = s.hist ++ [(s.roll rs).liveDice] := rfl
  rw [Dice.current_roll, h, List.getLastD_concat]

/-- Dice.make yields count = n, the pool 0..n-1, a one-entry history whose
entry is the live dice value sequence. -/
theorem make_stats (k : String) (f n : Nat) :
    (Dice.make k f n).count = (n : Int) ∧
    (Dice.make k f n).pool = List.range n ∧
    (Dice.make k f n).hist ≠ [] ∧
    (Dice.make k f n).current_roll = (Dice.make k f n).liveDice :=
  ⟨rfl, rfl, List.cons_ne_nil _ _, rfl⟩

/-- Dice.from_dice_list on success yields count = 0, the pool 0..len-1, and a
one-entry history whose entry is the live dice value sequence. -/
theorem from_dice_list_ok (ds : List Die) (s2 : Dice)
    (h : Dice.from_dice_list ds = .ok s2) :
    s2.count = 0 ∧ s2.pool = List.range ds.length ∧ s2.hist ≠ [] ∧
    s2.current_roll = s2.liveDice := by
  unfold Dice.from_dice_list at h
  by_cases he : ds.isEmpty
  · rw [if_pos he] at h
    exact absurd h (by simp)
  · rw [if_neg he] at h
    injection h with h2
    subst h2
    exact ⟨rfl, rfl, List.cons_ne_nil _ _, rfl⟩

/-- Dice.setFrozen touches only the heap. -/
theorem setFrozen_stats (s : Dice) (i : Nat) (b : Bool) :
    (s.setFrozen i b).count = s.count ∧ (s.setFrozen i b).pool = s.pool ∧
    (s.setFrozen i b).hist = s.hist :=
  ⟨rfl, rfl, rfl⟩

/-- The freeze/unfreeze recursion over a list of Die references touches only
the heap. -/
theorem foldl_setFrozen_stats (b : Bool) :
    ∀ (l : List PyObj) (s : Dice),
      (l.foldl (fun acc o => match o with
          | .dieRef i => acc.setFrozen i b
          | .intVal _ => acc) s).count = s.count ∧
      (l.foldl (fun acc o => match o with
          | .dieRef i => acc.setFrozen i b
          | .intVal _ => acc) s).pool = s.pool ∧
      (l.foldl (fun acc o => match o with
          | .dieRef i => acc.setFrozen i b
          | .intVal _ => acc) s).hist = s.hist := by
  intro l
  induction l with
  | nil => intro s; exact ⟨rfl, rfl, rfl⟩
  | cons o l ih =>
    intro s
    cases o with
    | dieRef i => exact ih (s.setFrozen i b)
    | intVal n => exact ih s

/-- A successful RollManager.freeze call returns the managed container with
the same count, pool and roll_history (only is_frozen flags in the heap may
change). -/
theorem rm_freeze_ok_stats (s : Dice) (arg : FreezeArg) (b : Bool) (s2 : Dice)
    (h : RollManager.freeze s arg b = .ok s2) :
    s2.count = s.count ∧ s2.pool = s.pool ∧ s2.hist = s.hist := by
  unfold RollManager.freeze at h
  split at h
  · exact absurd h (by simp)
  · repeat' split at h
    all_goals
      first
      | (injection h with h2; subst h2; exact ⟨rfl, rfl, rfl⟩)
      | (injection h with h2; subst h2; exact foldl_setFrozen_stats _ _ s)
      | injection h

/-- A successful RollManager.unfreeze call returns the managed container with
the same count, pool and roll_history. -/
theorem rm_unfreeze_ok_stats (s : Dice) (arg : FreezeArg) (b : Bool) (s2 : Dice)
    (h : RollManager.unfreeze s arg b = .ok s2) :
    s2.count = s.count ∧ s2.pool = s.pool ∧ s2.hist = s.hist := by
  unfold RollManager.unfreeze at h
  split at h
  · exact absurd h (by simp)
  · repeat' split at h
    all_goals
      first
      | (injection h with h2; subst h2; exact ⟨rfl, rfl, rfl⟩)
      | (injection h with h2; subst h2; exact foldl_setFrozen_stats _ _ s)
      | injection h

/-- C7 (confirmed): on a non-empty pool, remove_lowest_roll (resp.
remove_highest_roll) removes exactly one die, the one at the first pool
position attaining the minimal (resp. maximal) rolled value, and decrements
count by 1 leaving everything else (history included) unchanged; on an empty
pool each fails with ValueError. Position j of the existential is the first
occurrence: every earlier position holds a strictly greater (resp. smaller)
rolled value. -/
theorem C7_remove_extreme_rolls : ∀ s : Dice,
    (s.pool = [] →
      s.remove_lowest_roll = .error .valueError ∧
      s.remove_highest_roll = .error .valueError) ∧
    (s.pool ≠ [] →
      (∃ j, j < s.pool.length ∧
        s.remove_lowest_roll =
          .ok { s with pool := s.pool.eraseIdx j, count := s.count - 1 } ∧
        (∀ i, i < s.pool.length →
          (s.getDie (s.pool.getD j 0)).rolled ≤ (s.getDie (s.pool.getD i 0)).rolled) ∧
        (∀ i, i < j →
          (s.getDie (s.pool.getD j 0)).rolled < (s.getDie (s.pool.getD i 0)).rolled)) ∧
      (∃ j, j < s.pool.length ∧
        s.remove_highest_roll =
          .ok { s with pool := s.pool.eraseIdx j, count := s.count - 1 } ∧
        (∀ i, i < s.pool.length →
          (s.getDie (s.pool.getD i 0)).rolled ≤ (s.getDie (s.pool.getD j 0)).rolled) ∧
        (∀ i, i < j →
          (s.getDie (s.pool.getD i 0)).rolled < (s.getDie (s.pool.getD j 0)).rolled))) :=
  fun s =>
    ⟨remove_empty_spec s,
     fun h => ⟨remove_lowest_spec s h, remove_highest_spec s h⟩⟩

/-- A concrete container for the C7 witness: three d6 rolled to [2, 1, 1];
the first minimum sits at position 1, the first maximum at position 0. -/
def c7s : Dice := (Dice.make "SixSidedDie" 6 3).roll (fun pos => [2, 1, 1].getD pos 0)

/-- C7 witness: an empty container rejects both removals with ValueError, and
on the concrete pool [2, 1, 1] each removal deletes exactly one extreme die. -/
theorem C7_remove_witness :
    ((Dice.make "SixSidedDie" 6 0).remove_lowest_roll = .error .valueError ∧
     (Dice.make "SixSidedDie" 6 0).remove_highest_roll = .error .valueError) ∧
    ((∃ j, j < c7s.pool.length ∧
        c7s.remove_lowest_roll =
          .ok { c7s with pool := c7s.pool.eraseIdx j, count := c7s.count - 1 } ∧
        (∀ i, i < c7s.pool.length →
          (c7s.getDie (c7s.pool.getD j 0)).rolled ≤ (c7s.getDie (c7s.pool.getD i 0)).rolled) ∧
        (∀ i, i < j →
          (c7s.getDie (c7s.pool.getD j 0)).rolled < (c7s.getDie (c7s.pool.getD i 0)).rolled)) ∧
     (∃ j, j < c7s.pool.length ∧
        c7s.remove_highest_roll =
          .ok { c7s with pool := c7s.pool.eraseIdx j, count := c7s.count - 1 } ∧
        (∀ i, i < c7s.pool.length →
          (c7s.getDie (c7s.pool.getD i 0)).rolled ≤ (c7s.getDie (c7s.pool.getD j 0)).rolled) ∧
        (∀ i, i < j →
          (c7s.getDie (c7s.pool.getD i 0)).rolled < (c7s.getDie (c7s.pool.getD j 0)).rolled))) :=
  ⟨(C7_remove_extreme_rolls (Dice.make "SixSidedDie" 6 0)).1 (by decide),
   (C7_remove_extreme_rolls c7s).2 (by decide)⟩

/-- C1 (code_bug): roll_with_advantage adds one die, rolls every die and
removes the single lowest-valued die from the live pool, but the int it
returns is self._dice.current_total, which reads the roll_history snapshot
taken before the removal, so it is the sum of all n+1 post-roll values, not
the sum of the n highest. On a pool of three d6 with draws [2, 5, 6] and the
added die drawing 1, the code returns 14 = 2+5+6+1 while the remaining live
dice are [2, 5, 6] with claimed total 13; roll_with_disadvantage likewise
returns 14 while the remaining dice [2, 5, 1] sum to 8. The method docstring
(return the total of the remaining dice) and the Die.py module TODO (roll
histories with extra dice do not yet reflect the removal) document the
intended behaviour the claim states. -/
theorem C1_advantage_total_includes_removed_die :
    ((RollManager.roll_with_advantage (Dice.make "SixSidedDie" 6 3)
        (fun pos => [2, 5, 6, 1].getD pos 0)).toOption.map
      (fun p => (p.2, p.1.liveDice.map Die.rolled))) = some (14, [2, 5, 6]) ∧
    ((RollManager.roll_with_disadvantage (Dice.make "SixSidedDie" 6 3)
        (fun pos => [2, 5, 6, 1].getD pos 0)).toOption.map
      (fun p => (p.2, p.1.liveDice.map Die.rolled))) = some (14, [2, 5, 1]) ∧
    (14 : Int) ≠ 2 + 5 + 6 ∧ (14 : Int) ≠ 2 + 5 + 1 :=
  ⟨by decide, by decide, by decide, by decide⟩

/-- C4 (code_bug): the container's freeze raises TypeError on every call (its
validator lacks a self parameter, so the bound-method call has one argument
too many) and unfreeze raises NameError (declared without self, its body
reads an undefined name); even past validation, the freeze body is two pass
branches, so a die targeted through the container is left unfrozen and the
next roll overwrites its value (here to 5, where the repository's tests
expect the frozen die to keep 0). On the coordinator, freezing a single Die
reference does work (the frozen die keeps rolled = 0 across a roll of 5s),
but the all_dice=True path evaluates self.dice, an attribute a RollManager
does not have, and raises AttributeError instead of freezing the pool. -/
theorem C4_freeze_code_bug :
    Dice.freeze d6pool3 (.obj (.dieRef 1)) false = .error .typeError ∧
    Dice.unfreeze d6pool3 (.obj (.dieRef 1)) false = .error .nameError ∧
    ((Dice.freeze_body d6pool3 (.obj (.dieRef 1)) false).roll (fun _ => 5)).getDie 1 =
      ⟨"SixSidedDie", 6, 5, false⟩ ∧
    RollManager.freeze d6pool3 FreezeArg.none true = .error .attributeError ∧
    (RollManager.freeze d6pool3 (.obj (.dieRef 1)) false).toOption.map
      (fun t => ((t.roll (fun _ => 5)).getDie 1).rolled) = some 0 :=
  ⟨rfl, rfl, by decide, rfl, by decide⟩

/-- C6 (code_bug): every call of the container's freeze, with any argument
shape whatsoever (none, a target together with all_dice=True, a non-Die
scalar, an empty list, a list holding a non-Die element, and also a perfectly
valid single-Die target), raises TypeError, not the ValueError the claim and
the repository's own tests expect, because the validator is missing its self
parameter; moreover the validator's own logic, were it reachable, accepts an
empty list (all() over an empty list is True) and rejects all_dice=True alone
(the final else raises unconditionally), both against the claim. -/
theorem C6_freeze_validation_code_bug :
    Dice.freeze d6pool3 FreezeArg.none false = .error .typeError ∧
    Dice.freeze d6pool3 (.obj (.dieRef 0)) true = .error .typeError ∧
    Dice.freeze d6pool3 (.obj (.intVal 5)) false = .error .typeError ∧
    Dice.freeze d6pool3 (.list []) false = .error .typeError ∧
    Dice.freeze d6pool3 (.list [.dieRef 0, .intVal 7]) false = .error .typeError ∧
    Dice.freeze d6pool3 (.obj (.dieRef 1)) false = .error .typeError ∧
    Err.typeError ≠ Err.valueError ∧
    Dice.validate_freeze_logic (.list []) false = .ok () ∧
    Dice.validate_freeze_logic FreezeArg.none true = .error .valueError :=
  ⟨rfl, rfl, rfl, rfl, rfl, rfl, by decide, rfl, rfl⟩

/-- C2 (corrected): the invariant count == len(dice) holds for a freshly
constructed container and is preserved by roll, add_dice,
remove_lowest_roll, remove_highest_roll and the coordinator's
freeze/unfreeze (the container's own freeze/unfreeze never return a state:
they raise, see C4); but construction from an existing dice list breaks the
invariant: from_dice_list builds the container with count=0 and never updates
count, whatever the length of the supplied list. -/
theorem C2_count_matches_pool_except_from_list :
    ∀ (k : String) (f n numb : Nat) (s : Dice) (ds : List Die) (rs : Nat → Int)
      (arg : FreezeArg) (b : Bool),
    ((Dice.make k f n).count = ((Dice.make k f n).pool.length : Int)) ∧
    (s.count = (s.pool.length : Int) →
      (s.add_dice numb).count = ((s.add_dice numb).pool.length : Int)) ∧
    (s.count = (s.pool.length : Int) →
      (s.roll rs).count = ((s.roll rs).pool.length : Int)) ∧
    (∀ s2, s.count = (s.pool.length : Int) → s.remove_lowest_roll = .ok s2 →
      s2.count = (s2.pool.length : Int)) ∧
    (∀ s2, s.count = (s.pool.length : Int) → s.remove_highest_roll = .ok s2 →
      s2.count = (s2.pool.length : Int)) ∧
    (∀ s2, s.count = (s.pool.length : Int) → RollManager.freeze s arg b = .ok s2 →
      s2.count = (s2.pool.length : Int)) ∧
    (∀ s2, s.count = (s.pool.length : Int) → RollManager.unfreeze s arg b = .ok s2 →
      s2.count = (s2.pool.length : Int)) ∧
    (∀ s2, Dice.from_dice_list ds = .ok s2 →
      s2.count = 0 ∧ s2.pool.length = ds.length) := by
  intro k f n numb s ds rs arg b
  refine ⟨?_, ?_, ?_, ?_, ?_, ?_, ?_, ?_⟩
  · obtain ⟨h1, h2, _, _⟩ := make_stats k f n
    rw [h1, h2, List.length_range]
  · intro hinv
    obtain ⟨h1, h2, _⟩ := add_dice_stats s numb
    rw [h1, h2, hinv]
    omega
  · intro hinv
    obtain ⟨h1, h2, _, _⟩ := roll_stats s rs
    rw [h1, h2, hinv]
  · intro s2 hinv hok
    by_cases hp : s.pool = []
    · rw [(remove_empty_spec s hp).1] at hok
      exact absurd hok (by simp)
    · obtain ⟨j, hj, heq, _, _⟩ := remove_lowest_spec s hp
      rw [heq] at hok
      injection hok with h2
      subst h2
      have hlen := length_eraseIdx_of_lt s.pool j hj
      show s.count - 1 = ((s.pool.eraseIdx j).length : Int)
      rw [hlen]
      omega
  · intro s2 hinv hok
    by_cases hp : s.pool = []
    · rw [(remove_empty_spec s hp).2] at hok
      exact absurd hok (by simp)
    · obtain ⟨j, hj, heq, _, _⟩ := remove_highest_spec s hp
      rw [heq] at hok
      injection hok with h2
      subst h2
      have hlen := length_eraseIdx_of_lt s.pool j hj
      show s.count - 1 = ((s.pool.eraseIdx j).length : Int)
      rw [hlen]
      omega
  · intro s2 hinv hok
    obtain ⟨hc, hp, _⟩ := rm_freeze_ok_stats s arg b s2 hok
    rw [hc, hp, hinv]
  · intro s2 hinv hok
    obtain ⟨hc, hp, _⟩ := rm_unfreeze_ok_stats s arg b s2 hok
    rw [hc, hp, hinv]
  · intro s2 hok
    obtain ⟨h1, h2, _, _⟩ := from_dice_list_ok ds s2 hok
    refine ⟨h1, ?_⟩
    rw [h2, List.length_range]

/-- C2 counterexample: from_dice_list on a one-element list yields a
container whose count is 0 while its live dice list has length 1: the claim
that count equals the length of the live dice list after every operation
fails right after construction from an existing dice list. -/
theorem C2_from_dice_list_counterexample :
    (Dice.from_dice_list [freshDie "SixSidedDie" 6]).toOption.map
      (fun s => (s.count, s.liveDice.length)) = some (0, 1) ∧
    ((0 : Int) ≠ ((1 : Nat) : Int)) :=
  ⟨by decide, by decide⟩

/-- C2 witness: the preservation statements applied at concrete states: two
dice added to the three-dice sample keep count in sync, removing the lowest
keeps count in sync, and the container built from a one-die list has
count 0. -/
theorem C2_count_witness :
    ((d6pool3.add_dice 2).count = ((d6pool3.add_dice 2).pool.length : Int)) ∧
    (((d6pool3.remove_lowest_roll).toOption.getD d6pool3).count =
      ((((d6pool3.remove_lowest_roll).toOption.getD d6pool3).pool.length : Nat) : Int)) ∧
    (((Dice.from_dice_list [freshDie "SixSidedDie" 6]).toOption.getD d6pool3).count = 0) :=
  ⟨(C2_count_matches_pool_except_from_list "SixSidedDie" 6 3 2 d6pool3
      [freshDie "SixSidedDie" 6] (fun _ => 4) (.obj (.dieRef 1)) false).2.1 (by decide),
   (C2_count_matches_pool_except_from_list "SixSidedDie" 6 3 2 d6pool3
      [freshDie "SixSidedDie" 6] (fun _ => 4) (.obj (.dieRef 1)) false).2.2.2.1
     _ (by decide) rfl,
   ((C2_count_matches_pool_except_from_list "SixSidedDie" 6 3 2 d6pool3
      [freshDie "SixSidedDie" 6] (fun _ => 4) (.obj (.dieRef 1)) false).2.2.2.2.2.2.2
     _ rfl).1⟩

/-- C3 (corrected): roll_history is non-empty from construction on; its last
entry equals the live dice value-wise after construction (both forms) and
after every roll; and every operation leaves previously recorded snapshots
untouched (snapshots are deep copies severed from the live objects, so
rolling, coordinator freezing/unfreezing, adding and removing dice never
change an existing entry — roll appends exactly one entry and the others
leave roll_history equal). But add_dice and remove_lowest/highest_roll update
only the live pool, so immediately after them the last history entry need
not equal the live dice list (the lengths differ) until the next roll, which
the original claim rules out. -/
theorem C3_history_invariants :
    ∀ (k : String) (f n numb : Nat) (s : Dice) (ds : List Die) (rs : Nat → Int)
      (arg : FreezeArg) (b : Bool),
    ((Dice.make k f n).hist ≠ [] ∧
      (Dice.make k f n).current_roll = (Dice.make k f n).liveDice) ∧
    (∀ s2, Dice.from_dice_list ds = .ok s2 →
      s2.hist ≠ [] ∧ s2.current_roll = s2.liveDice) ∧
    ((s.roll rs).hist = s.hist ++ [(s.roll rs).liveDice] ∧
      (s.roll rs).current_roll = (s.roll rs).liveDice) ∧
    ((s.add_dice numb).hist = s.hist) ∧
    (∀ s2, s.remove_lowest_roll = .ok s2 → s2.hist = s.hist) ∧
    (∀ s2, s.remove_highest_roll = .ok s2 → s2.hist = s.hist) ∧
    (∀ s2, RollManager.freeze s arg b = .ok s2 → s2.hist = s.hist) ∧
    (∀ s2, RollManager.unfreeze s arg b = .ok s2 → s2.hist = s.hist) := by
  intro k f n numb s ds rs arg b
  refine ⟨⟨(make_stats k f n).2.2.1, (make_stats k f n).2.2.2⟩, ?_,
    ⟨(roll_stats s rs).2.2.1, (roll_stats s rs).2.2.2⟩,
    (add_dice_stats s numb).2.2, ?_, ?_, ?_, ?_⟩
  · intro s2 hok
    obtain ⟨_, _, h3, h4⟩ := from_dice_list_ok ds s2 hok
    exact ⟨h3, h4⟩
  · intro s2 hok
    by_cases hp : s.pool = []
    · rw [(remove_empty_spec s hp).1] at hok
      exact absurd hok (by simp)
    · obtain ⟨j, hj, heq, _, _⟩ := remove_lowest_spec s hp
      rw [heq] at hok
      injection hok with h2
      subst h2
      rfl
  · intro s2 hok
    by_cases hp : s.pool = []
    · rw [(remove_empty_spec s hp).2] at hok
      exact absurd hok (by simp)
    · obtain ⟨j, hj, heq, _, _⟩ := remove_highest_spec s hp
      rw [heq] at hok
      injection hok with h2
      subst h2
      rfl
  · intro s2 hok
    exact (rm_freeze_ok_stats s arg b s2 hok).2.2
  · intro s2 hok
    exact (rm_unfreeze_ok_stats s arg b s2 hok).2.2

/-- C3 counterexample: right after add_dice the last history entry still has
one die while the live pool has two, so the last entry does not equal the
live dice list after every operation as the claim states. -/
theorem C3_add_dice_counterexample :
    ((Dice.make "SixSidedDie" 6 1).add_dice 1).current_roll.length = 1 ∧
    ((Dice.make "SixSidedDie" 6 1).add_dice 1).liveDice.length = 2 ∧
    (1 : Nat) ≠ 2 :=
  ⟨by decide, by decide, by decide⟩

/-- C3 witness: the invariants applied at concrete states: the container
built from a one-die list has a non-empty history whose last entry is the
live dice, and removing the lowest die from the sample pool leaves
roll_history unchanged. -/
theorem C3_history_witness :
    (((Dice.from_dice_list [freshDie "SixSidedDie" 6]).toOption.getD d6pool3).hist ≠ [] ∧
      ((Dice.from_dice_list [freshDie "SixSidedDie" 6]).toOption.getD d6pool3).current_roll =
        ((Dice.from_dice_list [freshDie "SixSidedDie" 6]).toOption.getD d6pool3).liveDice) ∧
    ((d6pool3.remove_lowest_roll).toOption.getD d6pool3).hist = d6pool3.hist :=
  ⟨(C3_history_invariants "SixSidedDie" 6 3 2 d6pool3 [freshDie "SixSidedDie" 6]
      (fun _ => 4) (.obj (.dieRef 1)) false).2.1 _ rfl,
   (C3_history_invariants "SixSidedDie" 6 3 2 d6pool3 [freshDie "SixSidedDie" 6]
      (fun _ => 4) (.obj (.dieRef 1)) false).2.2.2.2.1 _ rfl⟩
